import Mathlib

/-! XMSS parameter registry (Botan, `src/lib/pubkey/xmss/xmss_parameters.cpp`)

A shallow embedding of the name lookup and the two constructors of
`XMSS_Parameters`:

* `XMSS_Parameters.xmss_id_from_string` : the chain of string comparisons that
  resolves a parameter-set name to an `xmss_algorithm_t`;
* `XMSS_Parameters.of_oid` : the constructor `XMSS_Parameters(xmss_algorithm_t)`,
  a `switch` over the identifier with a throwing `default`;
* `XMSS_Parameters.of_string` : the delegating constructor
  `XMSS_Parameters(const std::string&)`.

C++ exceptions are modelled with `Except`; the `size_t` members hold small
constants only and are modelled as `Nat`.
-/

deriving instance DecidableEq for Except

namespace Botan

/-- Modelled from the spec: the enumeration `xmss_algorithm_t` is declared in
`botan/xmss_parameters.h`, which is not part of the sources at hand. Its twelve
enumerators are the ones named in the `.cpp` file. A C++ enumeration object can
also hold a value of the underlying integer type that is none of the
enumerators (an out-of-range cast); `unlisted code` stands for such a value,
`code` being its number, different from the numbers of the twelve enumerators. -/
inductive xmss_algorithm_t where
  | XMSS_SHA2_10_256
  | XMSS_SHA2_16_256
  | XMSS_SHA2_20_256
  | XMSS_SHA2_10_512
  | XMSS_SHA2_16_512
  | XMSS_SHA2_20_512
  | XMSS_SHAKE_10_256
  | XMSS_SHAKE_16_256
  | XMSS_SHAKE_20_256
  | XMSS_SHAKE_10_512
  | XMSS_SHAKE_16_512
  | XMSS_SHAKE_20_512
  | unlisted (code : Nat)
  deriving DecidableEq, Repr

/-- Modelled from the spec: `XMSS_WOTS_Parameters::ots_algorithm_t` is declared
in a header that is not part of the sources at hand; these are the four
enumerators the `.cpp` file refers to. -/
inductive ots_algorithm_t where
  | WOTSP_SHA2_256
  | WOTSP_SHA2_512
  | WOTSP_SHAKE_256
  | WOTSP_SHAKE_512
  deriving DecidableEq, Repr

/-- The two exception classes thrown by the file (declared in
`botan/exceptn.h`); each carries the string it was constructed with. -/
inductive Exception where
  | Lookup_Error (err : String)
  | Not_Implemented (err : String)
  deriving DecidableEq, Repr

/-- The data members of the C++ class `XMSS_Parameters`. -/
structure XMSS_Parameters where
  m_oid : xmss_algorithm_t
  m_element_size : Nat
  m_w : Nat
  m_len : Nat
  m_tree_height : Nat
  m_name : String
  m_hash_name : String
  m_strength : Nat
  m_wots_oid : ots_algorithm_t
  deriving DecidableEq, Repr

namespace XMSS_Parameters

open xmss_algorithm_t ots_algorithm_t

/-- `XMSS_Parameters::xmss_id_from_string` (lines 20-47): twelve comparisons in
the order of the source, among them the two consecutive comparisons with
`"XMSS-SHAKE_10_256"`, and the final `throw Lookup_Error`. -/
def xmss_id_from_string (param_set : String) : Except Exception xmss_algorithm_t :=
  if param_set = "XMSS-SHA2_10_256" then .ok XMSS_SHA2_10_256
  else if param_set = "XMSS-SHA2_16_256" then .ok XMSS_SHA2_16_256
  else if param_set = "XMSS-SHA2_20_256" then .ok XMSS_SHA2_20_256
  else if param_set = "XMSS-SHA2_10_512" then .ok XMSS_SHA2_10_512
  else if param_set = "XMSS-SHA2_16_512" then .ok XMSS_SHA2_16_512
  else if param_set = "XMSS-SHA2_20_512" then .ok XMSS_SHA2_20_512
  else if param_set = "XMSS-SHAKE_10_256" then .ok XMSS_SHAKE_10_256
  else if param_set = "XMSS-SHAKE_10_256" then .ok XMSS_SHAKE_16_256
  else if param_set = "XMSS-SHAKE_20_256" then .ok XMSS_SHAKE_20_256
  else if param_set = "XMSS-SHAKE_10_512" then .ok XMSS_SHAKE_10_512
  else if param_set = "XMSS-SHAKE_16_512" then .ok XMSS_SHAKE_16_512
  else if param_set = "XMSS-SHAKE_20_512" then .ok XMSS_SHAKE_20_512
  else .error (.Lookup_Error ("Unknown XMSS algorithm param '" ++ param_set ++ "'"))

/-- The constructor `XMSS_Parameters::XMSS_Parameters(xmss_algorithm_t oid)`
(lines 54-183): `m_oid(oid)` followed by the `switch`, whose `default` throws
`Not_Implemented`. Members are listed in the order of the structure. -/
def of_oid (oid : xmss_algorithm_t) : Except Exception XMSS_Parameters :=
  match oid with
  | XMSS_SHA2_10_256 =>
      .ok ⟨oid, 32, 16, 67, 10, "XMSS-SHA2_10_256", "SHA-256", 256, WOTSP_SHA2_256⟩
  | XMSS_SHA2_16_256 =>
      .ok ⟨oid, 32, 16, 67, 16, "XMSS-SHA2_16_256", "SHA-256", 256, WOTSP_SHA2_256⟩
  | XMSS_SHA2_20_256 =>
      .ok ⟨oid, 32, 16, 67, 20, "XMSS-SHA2_20_256", "SHA-256", 256, WOTSP_SHA2_256⟩
  | XMSS_SHA2_10_512 =>
      .ok ⟨oid, 64, 16, 131, 10, "XMSS-SHA2_10_512", "SHA-512", 512, WOTSP_SHA2_512⟩
  | XMSS_SHA2_16_512 =>
      .ok ⟨oid, 64, 16, 131, 16, "XMSS-SHA2_16_512", "SHA-512", 512, WOTSP_SHA2_512⟩
  | XMSS_SHA2_20_512 =>
      .ok ⟨oid, 64, 16, 131, 20, "XMSS-SHA2_20_512", "SHA-512", 512, WOTSP_SHA2_512⟩
  | XMSS_SHAKE_10_256 =>
      .ok ⟨oid, 32, 16, 67, 10, "XMSS-SHAKE_10_256", "SHAKE-128(256)", 256, WOTSP_SHAKE_256⟩
  | XMSS_SHAKE_16_256 =>
      .ok ⟨oid, 32, 16, 67, 16, "XMSS-SHAKE_16_256", "SHAKE-128(256)", 256, WOTSP_SHAKE_256⟩
  | XMSS_SHAKE_20_256 =>
      .ok ⟨oid, 32, 16, 67, 20, "XMSS-SHAKE_20_256", "SHAKE-128(256)", 256, WOTSP_SHAKE_256⟩
  | XMSS_SHAKE_10_512 =>
      .ok ⟨oid, 64, 16, 131, 10, "XMSS-SHAKE_10_512", "SHAKE-256(512)", 512, WOTSP_SHAKE_512⟩
  | XMSS_SHAKE_16_512 =>
      .ok ⟨oid, 64, 16, 131, 16, "XMSS-SHAKE_16_512", "SHAKE-256(512)", 512, WOTSP_SHAKE_512⟩
  | XMSS_SHAKE_20_512 =>
      .ok ⟨oid, 64, 16, 131, 20, "XMSS_SHAKE_20_512", "SHAKE-256(512)", 512, WOTSP_SHAKE_512⟩
  | _ =>
      .error (.Not_Implemented "Algorithm id does not match any known XMSS algorithm id.")

/-- The delegating constructor `XMSS_Parameters::XMSS_Parameters(const
std::string& param_set)` (lines 49-52): the identifier is looked up first, and
an exception thrown by the lookup leaves before the other constructor runs. -/
def of_string (param_set : String) : Except Exception XMSS_Parameters :=
  xmss_id_from_string param_set >>= of_oid

end XMSS_Parameters

/-- The twelve parameter-set names of the external interface, in the order the
specification lists them. -/
def canonical_names : List String :=
  [ "XMSS-SHA2_10_256", "XMSS-SHA2_16_256", "XMSS-SHA2_20_256",
    "XMSS-SHA2_10_512", "XMSS-SHA2_16_512", "XMSS-SHA2_20_512",
    "XMSS-SHAKE_10_256", "XMSS-SHAKE_16_256", "XMSS-SHAKE_20_256",
    "XMSS-SHAKE_10_512", "XMSS-SHAKE_16_512", "XMSS-SHAKE_20_512" ]

/-- The twelve enumerators of `xmss_algorithm_t`, in the same order. -/
def defined_ids : List xmss_algorithm_t :=
  [ .XMSS_SHA2_10_256, .XMSS_SHA2_16_256, .XMSS_SHA2_20_256,
    .XMSS_SHA2_10_512, .XMSS_SHA2_16_512, .XMSS_SHA2_20_512,
    .XMSS_SHAKE_10_256, .XMSS_SHAKE_16_256, .XMSS_SHAKE_20_256,
    .XMSS_SHAKE_10_512, .XMSS_SHAKE_16_512, .XMSS_SHAKE_20_512 ]

/-- The correspondence "name `XMSS-F_h_s` / enumerator `XMSS_F_h_s`" of the
external interface: the two lists above, paired position by position. -/
def name_id_table : List (String × xmss_algorithm_t) :=
  canonical_names.zip defined_ids

/-- The two hash families a parameter-set name can spell. -/
inductive hash_family where
  | SHA2
  | SHAKE
  deriving DecidableEq, Repr

/-- The family as it is written inside a parameter-set name. -/
def hash_family.tag : hash_family → String
  | .SHA2 => "SHA2"
  | .SHAKE => "SHAKE"

/-- The name `XMSS-F_h_s` spelled from a family, a tree height and a strength. -/
def spelled_name (F : hash_family) (h s : Nat) : String :=
  "XMSS-" ++ F.tag ++ "_" ++ toString h ++ "_" ++ toString s

/-- The hash function a family and a strength stand for, as the specification
pairs them. -/
def spelled_hash_name (F : hash_family) (s : Nat) : String :=
  match F with
  | .SHA2 => if s = 256 then "SHA-256" else "SHA-512"
  | .SHAKE => if s = 256 then "SHAKE-128(256)" else "SHAKE-256(512)"

/-- The four hash families of the data model, each with its strength. -/
def hash_families : List (String × Nat) :=
  [("SHA-256", 256), ("SHA-512", 512), ("SHAKE-128(256)", 256), ("SHAKE-256(512)", 512)]

/-- The three tree heights of the data model. -/
def tree_heights : List Nat := [10, 16, 20]

/-- The cartesian product of the four hash families and the three heights, as
triples (hash function name, strength, tree height). -/
def family_height_product : List (String × Nat × Nat) :=
  hash_families.flatMap fun f => tree_heights.map fun h => (f.1, f.2, h)

/-- The triple (hash function name, strength, tree height) of a record. -/
def record_key (r : XMSS_Parameters) : String × Nat × Nat :=
  (r.m_hash_name, r.m_strength, r.m_tree_height)

/-- The first part of the WOTS+ length formula, `len1 = ceil(8n / log2 w)`, in
integer arithmetic: `Nat.log 2 w` is the integer part of `log2 w` (all of it
when `w` is a power of two) and the quotient is rounded up. -/
def wots_len1 (n w : Nat) : Nat :=
  (8 * n + Nat.log 2 w - 1) / Nat.log 2 w

/-- The second part of the WOTS+ length formula,
`len2 = floor(log2(len1 * (w - 1)) / log2 w) + 1`, in integer arithmetic. -/
def wots_len2 (n w : Nat) : Nat :=
  Nat.log 2 (wots_len1 n w * (w - 1)) / Nat.log 2 w + 1

/-- The WOTS+ length formula, `len = len1 + len2`. -/
def wots_len (n w : Nat) : Nat :=
  wots_len1 n w + wots_len2 n w

/-! ## Shared lemmas -/

section lemmas

open XMSS_Parameters xmss_algorithm_t ots_algorithm_t

/-- The successful runs of the name lookup, read off the chain of comparisons:
eleven (string, identifier) pairs. The second comparison with
`"XMSS-SHAKE_10_256"` is never reached with a matching string. -/
theorem xmss_id_from_string_ok_iff (s : String) (i : xmss_algorithm_t) :
    xmss_id_from_string s = .ok i ↔
      (s = "XMSS-SHA2_10_256" ∧ i = XMSS_SHA2_10_256) ∨
      (s = "XMSS-SHA2_16_256" ∧ i = XMSS_SHA2_16_256) ∨
      (s = "XMSS-SHA2_20_256" ∧ i = XMSS_SHA2_20_256) ∨
      (s = "XMSS-SHA2_10_512" ∧ i = XMSS_SHA2_10_512) ∨
      (s = "XMSS-SHA2_16_512" ∧ i = XMSS_SHA2_16_512) ∨
      (s = "XMSS-SHA2_20_512" ∧ i = XMSS_SHA2_20_512) ∨
      (s = "XMSS-SHAKE_10_256" ∧ i = XMSS_SHAKE_10_256) ∨
      (s = "XMSS-SHAKE_20_256" ∧ i = XMSS_SHAKE_20_256) ∨
      (s = "XMSS-SHAKE_10_512" ∧ i = XMSS_SHAKE_10_512) ∨
      (s = "XMSS-SHAKE_16_512" ∧ i = XMSS_SHAKE_16_512) ∨
      (s = "XMSS-SHAKE_20_512" ∧ i = XMSS_SHAKE_20_512) := by
  unfold xmss_id_from_string
  by_cases h0 : s = "XMSS-SHA2_10_256"
  · subst h0; simp [eq_comm]
  rw [if_neg h0]
  by_cases h1 : s = "XMSS-SHA2_16_256"
  · subst h1; simp [eq_comm]
  rw [if_neg h1]
  by_cases h2 : s = "XMSS-SHA2_20_256"
  · subst h2; simp [eq_comm]
  rw [if_neg h2]
  by_cases h3 : s = "XMSS-SHA2_10_512"
  · subst h3; simp [eq_comm]
  rw [if_neg h3]
  by_cases h4 : s = "XMSS-SHA2_16_512"
  · subst h4; simp [eq_comm]
  rw [if_neg h4]
  by_cases h5 : s = "XMSS-SHA2_20_512"
  · subst h5; simp [eq_comm]
  rw [if_neg h5]
  by_cases h6 : s = "XMSS-SHAKE_10_256"
  · subst h6; simp [eq_comm]
  rw [if_neg h6]
  rw [if_neg h6]
  by_cases h7 : s = "XMSS-SHAKE_20_256"
  · subst h7; simp [eq_comm]
  rw [if_neg h7]
  by_cases h8 : s = "XMSS-SHAKE_10_512"
  · subst h8; simp [eq_comm]
  rw [if_neg h8]
  by_cases h9 : s = "XMSS-SHAKE_16_512"
  · subst h9; simp [eq_comm]
  rw [if_neg h9]
  by_cases h10 : s = "XMSS-SHAKE_20_512"
  · subst h10; simp [eq_comm]
  rw [if_neg h10]
  simp [*]

/-- Every identifier the name lookup returns is one of the twelve enumerators. -/
theorem xmss_id_from_string_mem_defined_ids (s : String) (i : xmss_algorithm_t)
    (h : xmss_id_from_string s = .ok i) : i ∈ defined_ids := by
  rw [xmss_id_from_string_ok_iff] at h
  rcases h with h | h | h | h | h | h | h | h | h | h | h <;>
    (rw [h.2]; decide)

/-- A string outside the twelve names makes the lookup throw `Lookup_Error`
with the message built from that string. -/
theorem xmss_id_from_string_error_of_not_mem (s : String) (h : s ∉ canonical_names) :
    xmss_id_from_string s =
      .error (.Lookup_Error ("Unknown XMSS algorithm param '" ++ s ++ "'")) := by
  simp [canonical_names] at h
  simp [xmss_id_from_string, h]

/-- The lookup throws nothing but `Lookup_Error`. -/
theorem xmss_id_from_string_error_kind (s : String) (e : Exception)
    (h : xmss_id_from_string s = .error e) :
    e = .Lookup_Error ("Unknown XMSS algorithm param '" ++ s ++ "'") := by
  cases hs : xmss_id_from_string s with
  | ok i =>
    rw [hs] at h
    cases h
  | error e2 =>
    rw [hs] at h
    cases h
    by_cases hm : s ∈ canonical_names
    · simp only [canonical_names, List.mem_cons, List.mem_singleton, List.mem_nil_iff,
        or_false] at hm
      rcases hm with hm | hm | hm | hm | hm | hm | hm | hm | hm | hm | hm | hm <;>
        subst hm <;> first
          | (cases hs; done)
          | (cases hs; rfl)
    · exact Except.error.inj (hs.symm.trans (xmss_id_from_string_error_of_not_mem s hm))

/-- The constructor from an identifier succeeds on each of the twelve
enumerators and stores the identifier it was given. -/
theorem of_oid_ok_of_mem (i : xmss_algorithm_t) (h : i ∈ defined_ids) :
    ∃ r, of_oid i = .ok r ∧ r.m_oid = i := by
  simp only [defined_ids, List.mem_cons, List.mem_singleton, List.mem_nil_iff, or_false] at h
  rcases h with h | h | h | h | h | h | h | h | h | h | h | h <;> subst h <;> exact ⟨_, rfl, rfl⟩

/-- An identifier on which the constructor succeeds is one of the twelve. -/
theorem mem_defined_ids_of_ok (i : xmss_algorithm_t) (r : XMSS_Parameters)
    (h : of_oid i = .ok r) : i ∈ defined_ids := by
  cases i <;> first
    | decide
    | (exact absurd h (by simp [of_oid]))

/-- Outside the twelve enumerators the constructor takes the `default` branch. -/
theorem of_oid_error_of_not_mem (i : xmss_algorithm_t) (h : i ∉ defined_ids) :
    of_oid i =
      .error (.Not_Implemented "Algorithm id does not match any known XMSS algorithm id.") := by
  cases i <;> first
    | rfl
    | (exact absurd (by decide) h)

/-- The twelve name fields, compared pair by pair. -/
theorem m_name_distinct_on_defined_ids :
    ∀ a ∈ defined_ids, ∀ b ∈ defined_ids, a ≠ b →
      Except.map m_name (of_oid a) ≠ Except.map m_name (of_oid b) := by
  decide

/-- Taken in the order of `defined_ids`, the records carry the triples of
`family_height_product`, in the order of that list. -/
theorem record_key_of_defined_ids :
    defined_ids.map (fun i => Except.map record_key (of_oid i)) =
      family_height_product.map Except.ok := by
  decide

/-- The triple of a record determines the enumerator it was built from. -/
theorem record_key_distinct_on_defined_ids :
    ∀ a ∈ defined_ids, ∀ b ∈ defined_ids, a ≠ b →
      Except.map record_key (of_oid a) ≠ Except.map record_key (of_oid b) := by
  decide

/-- The lookup returns a given identifier for at most one string. -/
theorem xmss_id_from_string_unique (s t : String) (i : xmss_algorithm_t)
    (hs : xmss_id_from_string s = .ok i) (ht : xmss_id_from_string t = .ok i) : s = t := by
  rw [xmss_id_from_string_ok_iff] at hs ht
  rcases hs with hs | hs | hs | hs | hs | hs | hs | hs | hs | hs | hs <;>
    rcases ht with ht | ht | ht | ht | ht | ht | ht | ht | ht | ht | ht <;>
      first
        | (exact hs.1.trans ht.1.symm)
        | (exact absurd (hs.2.symm.trans ht.2) (by decide))

/-- The record stores the identifier the constructor was given. -/
theorem m_oid_of_ok (i : xmss_algorithm_t) (r : XMSS_Parameters) (h : of_oid i = .ok r) :
    r.m_oid = i := by
  cases i <;> first
    | (cases h; rfl)
    | (exact absurd h (by simp [of_oid]))

/-- Element size, width and chain count of a record: one of two triples. -/
theorem size_w_len_of_ok (i : xmss_algorithm_t) (r : XMSS_Parameters) (h : of_oid i = .ok r) :
    (r.m_element_size = 32 ∧ r.m_w = 16 ∧ r.m_len = 67) ∨
    (r.m_element_size = 64 ∧ r.m_w = 16 ∧ r.m_len = 131) := by
  cases i <;> first
    | (cases h; decide)
    | (exact absurd h (by simp [of_oid]))

theorem nat_log_two_16 : Nat.log 2 16 = 4 :=
  Nat.log_eq_of_pow_le_of_lt_pow (by norm_num) (by norm_num)

theorem nat_log_two_960 : Nat.log 2 960 = 9 :=
  Nat.log_eq_of_pow_le_of_lt_pow (by norm_num) (by norm_num)

theorem nat_log_two_1920 : Nat.log 2 1920 = 10 :=
  Nat.log_eq_of_pow_le_of_lt_pow (by norm_num) (by norm_num)

/-- The first part of the formula, once the integer part of `log2 w` is known. -/
theorem wots_len1_eq (n w k : Nat) (hk : Nat.log 2 w = k) :
    wots_len1 n w = (8 * n + k - 1) / k := by
  subst hk
  rfl

/-- The second part of the formula, once the two logarithms are known. -/
theorem wots_len2_eq (n w k l x lx : Nat) (hk : Nat.log 2 w = k) (hl : wots_len1 n w = l)
    (hx : l * (w - 1) = x) (hlx : Nat.log 2 x = lx) :
    wots_len2 n w = lx / k + 1 := by
  subst hk hl hx hlx
  rfl

theorem wots_len_eq (n w l1 l2 : Nat) (h1 : wots_len1 n w = l1) (h2 : wots_len2 n w = l2) :
    wots_len n w = l1 + l2 := by
  subst h1 h2
  rfl

theorem wots_len1_32_16 : wots_len1 32 16 = 64 :=
  wots_len1_eq 32 16 4 nat_log_two_16

theorem wots_len2_32_16 : wots_len2 32 16 = 3 :=
  wots_len2_eq 32 16 4 64 960 9 nat_log_two_16 wots_len1_32_16 (by norm_num) nat_log_two_960

theorem wots_len1_64_16 : wots_len1 64 16 = 128 :=
  wots_len1_eq 64 16 4 nat_log_two_16

theorem wots_len2_64_16 : wots_len2 64 16 = 3 :=
  wots_len2_eq 64 16 4 128 1920 10 nat_log_two_16 wots_len1_64_16 (by norm_num)
    nat_log_two_1920

/-- The integer formula at n = 32, w = 16: 64 + 3 = 67. -/
theorem wots_len_32_16 : wots_len 32 16 = 67 :=
  wots_len_eq 32 16 64 3 wots_len1_32_16 wots_len2_32_16

/-- The integer formula at n = 64, w = 16: 128 + 3 = 131. -/
theorem wots_len_64_16 : wots_len 64 16 = 131 :=
  wots_len_eq 64 16 128 3 wots_len1_64_16 wots_len2_64_16

theorem real_logb_two_16 : Real.logb 2 16 = 4 := by
  have h16 : (16 : ℝ) = 2 ^ (4 : ℕ) := by norm_num
  rw [h16, Real.logb_pow, Real.logb_self_eq_one (by norm_num)]
  norm_num

/-- For a natural number x between 16^k and 16^(k+1), the real quotient
`log2 x / log2 16` has integer part k. -/
theorem floor_logb_div_logb_16 (x k : ℕ) (h1 : 2 ^ (4 * k) ≤ x) (h2 : x < 2 ^ (4 * (k + 1))) :
    ⌊Real.logb 2 (x : ℝ) / Real.logb 2 16⌋₊ = k := by
  have hx1 : 1 ≤ x := lt_of_lt_of_le (by positivity) h1
  have hx : (0 : ℝ) < x := by exact_mod_cast hx1
  have hb : (1 : ℝ) < 2 := by norm_num
  rw [real_logb_two_16, Nat.floor_eq_iff]
  · constructor
    · rw [le_div_iff₀ (by norm_num), Real.le_logb_iff_rpow_le hb hx]
      have hk : ((k : ℝ) * 4) = ((4 * k : ℕ) : ℝ) := by push_cast; ring
      rw [hk, Real.rpow_natCast]
      exact_mod_cast h1
    · rw [div_lt_iff₀ (by norm_num), Real.logb_lt_iff_lt_rpow hb hx]
      have hk : (((k : ℝ) + 1) * 4) = ((4 * (k + 1) : ℕ) : ℝ) := by push_cast; ring
      rw [hk, Real.rpow_natCast]
      exact_mod_cast h2
  · apply div_nonneg
    · exact Real.logb_nonneg hb (by exact_mod_cast hx1)
    · norm_num

/-- The quotient `8n / log2 16` over the reals, rounded up, for n a natural number
with 8n = 4m. -/
theorem ceil_div_logb_16 (n m : ℕ) (h : 8 * n = 4 * m) :
    ⌈(8 * (n : ℝ)) / Real.logb 2 16⌉₊ = m := by
  have hq : (8 * (n : ℝ)) / 4 = (m : ℝ) := by
    have h2 : (8 * (n : ℝ)) = 4 * (m : ℝ) := by exact_mod_cast h
    rw [h2]
    ring
  rw [real_logb_two_16, hq, Nat.ceil_natCast]

end lemmas

/-! ## The claims -/

section claims

open XMSS_Parameters xmss_algorithm_t ots_algorithm_t

/-- C1, evaluated on the code: the pair ("XMSS-SHAKE_16_256", XMSS_SHAKE_16_256)
belongs to the name/identifier correspondence, yet the lookup of
"XMSS-SHAKE_16_256" throws `Lookup_Error` instead of returning
`XMSS_SHAKE_16_256`; it is the only one of the twelve pairs on which the lookup
does not return the identifier of the same name. -/
theorem C1_lookup_of_SHAKE_16_256_throws :
    ("XMSS-SHAKE_16_256", XMSS_SHAKE_16_256) ∈ name_id_table ∧
    xmss_id_from_string "XMSS-SHAKE_16_256" =
      .error (.Lookup_Error "Unknown XMSS algorithm param 'XMSS-SHAKE_16_256'") ∧
    name_id_table.filter (fun p => decide (xmss_id_from_string p.1 ≠ .ok p.2)) =
      [("XMSS-SHAKE_16_256", XMSS_SHAKE_16_256)] := by
  decide

/-- C2, evaluated on the code: the record built from the name
"XMSS-SHAKE_20_512" reports the name "XMSS_SHAKE_20_512", and building a record
from the name "XMSS-SHAKE_16_256" throws `Lookup_Error`; these two are the only
names among the twelve for which construct-from-name does not give back a
record carrying the input name. -/
theorem C2_name_round_trip_breaks :
    Except.map m_name (of_string "XMSS-SHAKE_20_512") = .ok "XMSS_SHAKE_20_512" ∧
    of_string "XMSS-SHAKE_16_256" =
      .error (.Lookup_Error "Unknown XMSS algorithm param 'XMSS-SHAKE_16_256'") ∧
    canonical_names.filter (fun n => decide (Except.map m_name (of_string n) ≠ .ok n)) =
      ["XMSS-SHAKE_16_256", "XMSS-SHAKE_20_512"] := by
  decide

/-- C3: for every string that is not one of the twelve canonical names, the
name lookup returns no identifier: it throws `Lookup_Error`, constructed with
the message "Unknown XMSS algorithm param '" + s + "'". -/
theorem C3_unknown_name_lookup_error (s : String) (h : s ∉ canonical_names) :
    xmss_id_from_string s =
      .error (.Lookup_Error ("Unknown XMSS algorithm param '" ++ s ++ "'")) :=
  xmss_id_from_string_error_of_not_mem s h

/-- C3 at the four strings the claim names: the empty string, a lower-case
variant, a name with a trailing space and "XMSS-SHA3_10_256". -/
theorem C3_unknown_name_lookup_error_witness :
    ("" ∉ canonical_names ∧
      xmss_id_from_string "" = .error (.Lookup_Error "Unknown XMSS algorithm param ''")) ∧
    ("xmss-sha2_10_256" ∉ canonical_names ∧
      xmss_id_from_string "xmss-sha2_10_256" =
        .error (.Lookup_Error "Unknown XMSS algorithm param 'xmss-sha2_10_256'")) ∧
    ("XMSS-SHA2_10_256 " ∉ canonical_names ∧
      xmss_id_from_string "XMSS-SHA2_10_256 " =
        .error (.Lookup_Error "Unknown XMSS algorithm param 'XMSS-SHA2_10_256 '")) ∧
    ("XMSS-SHA3_10_256" ∉ canonical_names ∧
      xmss_id_from_string "XMSS-SHA3_10_256" =
        .error (.Lookup_Error "Unknown XMSS algorithm param 'XMSS-SHA3_10_256'")) :=
  ⟨⟨by decide, C3_unknown_name_lookup_error "" (by decide)⟩,
   ⟨by decide, C3_unknown_name_lookup_error "xmss-sha2_10_256" (by decide)⟩,
   ⟨by decide, C3_unknown_name_lookup_error "XMSS-SHA2_10_256 " (by decide)⟩,
   ⟨by decide, C3_unknown_name_lookup_error "XMSS-SHA3_10_256" (by decide)⟩⟩

/-- C4: the constructor from an identifier succeeds if and only if the
identifier is one of the twelve enumerators; on every other value it builds no
record and throws `Not_Implemented`, and it never throws `Lookup_Error`. -/
theorem C4_of_oid_succeeds_iff_defined (oid : xmss_algorithm_t) :
    ((∃ r, of_oid oid = .ok r) ↔ oid ∈ defined_ids) ∧
    (oid ∉ defined_ids →
      of_oid oid =
        .error (.Not_Implemented "Algorithm id does not match any known XMSS algorithm id.")) ∧
    (∀ err, of_oid oid ≠ .error (.Lookup_Error err)) := by
  refine ⟨⟨?_, ?_⟩, of_oid_error_of_not_mem oid, ?_⟩
  · rintro ⟨r, hr⟩
    exact mem_defined_ids_of_ok oid r hr
  · intro h
    obtain ⟨r, hr, _⟩ := of_oid_ok_of_mem oid h
    exact ⟨r, hr⟩
  · intro err
    cases oid <;> simp [of_oid]

/-- C4 at two concrete values: an enumerator, on which a record is built, and
a value that is no enumerator, on which `Not_Implemented` is thrown. -/
theorem C4_of_oid_succeeds_iff_defined_witness :
    (∃ r, of_oid XMSS_SHA2_16_512 = .ok r) ∧
    unlisted 13 ∉ defined_ids ∧
    of_oid (unlisted 13) =
      .error (.Not_Implemented "Algorithm id does not match any known XMSS algorithm id.") :=
  ⟨(C4_of_oid_succeeds_iff_defined XMSS_SHA2_16_512).1.2 (by decide), by decide,
   (C4_of_oid_succeeds_iff_defined (unlisted 13)).2.1 (by decide)⟩

/-- C5: in every record the constructor builds, the element size is 32 or 64;
an element size of 32 comes with 67 chains and strength 256, an element size of
64 with 131 chains and strength 512. -/
theorem C5_size_len_strength_consistent (oid : xmss_algorithm_t) (r : XMSS_Parameters)
    (h : of_oid oid = .ok r) :
    (r.m_element_size = 32 ∨ r.m_element_size = 64) ∧
    (r.m_element_size = 32 → r.m_len = 67 ∧ r.m_strength = 256) ∧
    (r.m_element_size = 64 → r.m_len = 131 ∧ r.m_strength = 512) := by
  cases oid <;> first
    | (cases h; decide)
    | (exact absurd h (by simp [of_oid]))

/-- C5 on one record of each size: the records of `XMSS_SHA2_10_256` (32 bytes)
and of `XMSS_SHAKE_16_512` (64 bytes). -/
theorem C5_size_len_strength_consistent_witness :
    (∃ r, of_oid XMSS_SHA2_10_256 = .ok r ∧ r.m_element_size = 32 ∧
      r.m_len = 67 ∧ r.m_strength = 256) ∧
    (∃ r, of_oid XMSS_SHAKE_16_512 = .ok r ∧ r.m_element_size = 64 ∧
      r.m_len = 131 ∧ r.m_strength = 512) :=
  ⟨⟨_, rfl, rfl,
      (C5_size_len_strength_consistent XMSS_SHA2_10_256 _ rfl).2.1 rfl⟩,
   ⟨_, rfl, rfl,
      (C5_size_len_strength_consistent XMSS_SHAKE_16_512 _ rfl).2.2 rfl⟩⟩

/-- C6: construct-from-name is the name lookup followed by the constructor from
an identifier. It throws `Lookup_Error` exactly when the lookup throws, and
then the exception is the lookup's; when the lookup returns an identifier, the
constructor from an identifier succeeds on it and construct-from-name returns
that record; construct-from-name never throws `Not_Implemented`. -/
theorem C6_of_string_is_lookup_then_of_oid (s : String) :
    (of_string s =
      match xmss_id_from_string s with
      | .ok i => of_oid i
      | .error e => .error e) ∧
    ((∃ err, of_string s = .error (.Lookup_Error err)) ↔
      ∃ e, xmss_id_from_string s = .error e) ∧
    (∀ e, xmss_id_from_string s = .error e → of_string s = .error e) ∧
    (∀ i, xmss_id_from_string s = .ok i →
      i ∈ defined_ids ∧ of_string s = of_oid i ∧ ∃ r, of_string s = .ok r) ∧
    (∀ err, of_string s ≠ .error (.Not_Implemented err)) := by
  cases hs : xmss_id_from_string s with
  | error e =>
    have he := xmss_id_from_string_error_kind s e hs
    have hof : of_string s = .error e := by
      simp [of_string, hs, bind, Except.bind]
    refine ⟨hof, ⟨fun _ => ⟨e, rfl⟩, fun _ => ⟨_, by rw [hof, he]⟩⟩, ?_, ?_, ?_⟩
    · intro e2 h2
      cases h2
      exact hof
    · intro i hi
      cases hi
    · intro err
      rw [hof, he]
      simp
  | ok i =>
    have hmem := xmss_id_from_string_mem_defined_ids s i hs
    obtain ⟨r, hr, _⟩ := of_oid_ok_of_mem i hmem
    have hof : of_string s = of_oid i := by
      simp [of_string, hs, bind, Except.bind]
    refine ⟨hof, ⟨?_, ?_⟩, ?_, ?_, ?_⟩
    · rintro ⟨err, herr⟩
      rw [hof, hr] at herr
      cases herr
    · rintro ⟨e, he⟩
      cases he
    · intro e he
      cases he
    · intro j hj
      cases hj
      exact ⟨hmem, hof, r, by rw [hof, hr]⟩
    · intro err
      rw [hof, hr]
      simp

/-- C6 on a recognised name and on an unrecognised string. -/
theorem C6_of_string_is_lookup_then_of_oid_witness :
    xmss_id_from_string "XMSS-SHA2_20_512" = .ok XMSS_SHA2_20_512 ∧
    of_string "XMSS-SHA2_20_512" = of_oid XMSS_SHA2_20_512 ∧
    xmss_id_from_string "XMSS" = .error (.Lookup_Error "Unknown XMSS algorithm param 'XMSS'") ∧
    of_string "XMSS" = .error (.Lookup_Error "Unknown XMSS algorithm param 'XMSS'") :=
  ⟨rfl, ((C6_of_string_is_lookup_then_of_oid "XMSS-SHA2_20_512").2.2.2.1 _ rfl).2.1,
   rfl, (C6_of_string_is_lookup_then_of_oid "XMSS").2.2.1 _ rfl⟩

/-- C7: whenever construct-from-name succeeds on the name spelled "XMSS-F_h_s"
(F one of SHA2 and SHAKE, h one of 10, 16, 20, s one of 256 and 512), the
record has tree height h, strength s, element size s/8, Winternitz width 16,
67 chains for s = 256 and 131 for s = 512, and the hash function name of
(F, s). -/
theorem C7_record_carries_spelled_parameters (F : hash_family) (h s : Nat)
    (hh : h ∈ tree_heights) (hs : s ∈ [256, 512]) (r : XMSS_Parameters)
    (hr : of_string (spelled_name F h s) = .ok r) :
    r.m_tree_height = h ∧ r.m_strength = s ∧ r.m_element_size = s / 8 ∧ r.m_w = 16 ∧
    r.m_len = (if s = 256 then 67 else 131) ∧
    r.m_hash_name = spelled_hash_name F s := by
  simp only [tree_heights, List.mem_cons, List.mem_singleton, List.mem_nil_iff, or_false] at hh hs
  rcases hh with hh | hh | hh <;> rcases hs with hs | hs <;> subst hh <;> subst hs <;>
    cases F <;> cases hr <;> decide

/-- C7 on the two names the claim singles out: "XMSS-SHA2_10_256" gives
{32, 16, 67, 10, "SHA-256", 256} and "XMSS-SHAKE_20_512" gives
{64, 16, 131, 20, "SHAKE-256(512)", 512}. -/
theorem C7_record_carries_spelled_parameters_witness :
    (∃ r, of_string "XMSS-SHA2_10_256" = .ok r ∧
      r.m_tree_height = 10 ∧ r.m_strength = 256 ∧ r.m_element_size = 32 ∧ r.m_w = 16 ∧
      r.m_len = 67 ∧ r.m_hash_name = "SHA-256") ∧
    (∃ r, of_string "XMSS-SHAKE_20_512" = .ok r ∧
      r.m_tree_height = 20 ∧ r.m_strength = 512 ∧ r.m_element_size = 64 ∧ r.m_w = 16 ∧
      r.m_len = 131 ∧ r.m_hash_name = "SHAKE-256(512)") :=
  ⟨⟨_, rfl, C7_record_carries_spelled_parameters .SHA2 10 256 (by decide) (by decide) _ rfl⟩,
   ⟨_, rfl, C7_record_carries_spelled_parameters .SHAKE 20 512 (by decide) (by decide) _ rfl⟩⟩

/-- C8: construct-from-name on "XMSS-SHAKE_10_256" succeeds; the lookup returns
`XMSS_SHAKE_10_256` and the record is that of the height-10 SHAKE 256-bit set:
tree height 10 (not 16), element size 32, 67 chains, strength 256. -/
theorem C8_SHAKE_10_256_gives_height_10 :
    xmss_id_from_string "XMSS-SHAKE_10_256" = .ok XMSS_SHAKE_10_256 ∧
    of_string "XMSS-SHAKE_10_256" =
      .ok ⟨XMSS_SHAKE_10_256, 32, 16, 67, 10, "XMSS-SHAKE_10_256", "SHAKE-128(256)", 256,
        WOTSP_SHAKE_256⟩ ∧
    ∃ r, of_string "XMSS-SHAKE_10_256" = .ok r ∧ r.m_oid = XMSS_SHAKE_10_256 ∧
      r.m_tree_height = 10 ∧ r.m_tree_height ≠ 16 ∧ r.m_element_size = 32 ∧
      r.m_len = 67 ∧ r.m_strength = 256 :=
  ⟨by decide, by decide, _, rfl, by decide⟩

/-- C9: two different identifiers among the twelve both have a record, and the
two records have different name fields (identifier to name is injective). -/
theorem C9_names_pairwise_distinct (a b : xmss_algorithm_t)
    (ha : a ∈ defined_ids) (hb : b ∈ defined_ids) (hab : a ≠ b) :
    ∃ ra rb, of_oid a = .ok ra ∧ of_oid b = .ok rb ∧ ra.m_name ≠ rb.m_name := by
  obtain ⟨ra, hra, _⟩ := of_oid_ok_of_mem a ha
  obtain ⟨rb, hrb, _⟩ := of_oid_ok_of_mem b hb
  refine ⟨ra, rb, hra, hrb, ?_⟩
  intro hn
  apply m_name_distinct_on_defined_ids a ha b hb hab
  rw [hra, hrb]
  simp [Except.map, hn]

/-- C9 on the two identifiers whose names are closest, `XMSS_SHAKE_20_256` and
`XMSS_SHAKE_20_512`: the name fields "XMSS-SHAKE_20_256" and
"XMSS_SHAKE_20_512" differ. -/
theorem C9_names_pairwise_distinct_witness :
    XMSS_SHAKE_20_256 ∈ defined_ids ∧ XMSS_SHAKE_20_512 ∈ defined_ids ∧
    XMSS_SHAKE_20_256 ≠ XMSS_SHAKE_20_512 ∧
    ∃ ra rb, of_oid XMSS_SHAKE_20_256 = .ok ra ∧ of_oid XMSS_SHAKE_20_512 = .ok rb ∧
      ra.m_name ≠ rb.m_name :=
  ⟨by decide, by decide, by decide,
    C9_names_pairwise_distinct XMSS_SHAKE_20_256 XMSS_SHAKE_20_512
      (by decide) (by decide) (by decide)⟩

/-- C10: the map sending an identifier to the triple (hash function name,
strength, tree height) of its record is a bijection from the twelve identifiers
onto the product of the four hash families and the three heights: every record
has its triple in the product, different identifiers have different triples,
every triple of the product is the triple of some identifier, and both sets
have twelve elements; the tree height of every record is 10, 16 or 20. -/
theorem C10_ids_are_family_height_product :
    (∀ i r, of_oid i = .ok r →
      record_key r ∈ family_height_product ∧
      (r.m_tree_height = 10 ∨ r.m_tree_height = 16 ∨ r.m_tree_height = 20)) ∧
    (∀ a b ra rb, of_oid a = .ok ra → of_oid b = .ok rb →
      record_key ra = record_key rb → a = b) ∧
    (∀ k ∈ family_height_product, ∃ i ∈ defined_ids, ∃ r, of_oid i = .ok r ∧ record_key r = k) ∧
    defined_ids.Nodup ∧ defined_ids.length = 12 ∧
    family_height_product.Nodup ∧ family_height_product.length = 12 := by
  refine ⟨?_, ?_, ?_, by decide, by decide, by decide, by decide⟩
  · intro i r hr
    cases i <;> first
      | (cases hr; decide)
      | (exact absurd hr (by simp [of_oid]))
  · intro a b ra rb hra hrb hk
    by_contra hab
    apply record_key_distinct_on_defined_ids a (mem_defined_ids_of_ok a ra hra) b
      (mem_defined_ids_of_ok b rb hrb) hab
    rw [hra, hrb]
    simp [Except.map, hk]
  · intro k hk
    have hmap : Except.ok k ∈
        defined_ids.map (fun i => Except.map record_key (of_oid i)) := by
      rw [record_key_of_defined_ids]
      exact List.mem_map_of_mem _ hk
    obtain ⟨i, hi, hik⟩ := List.mem_map.1 hmap
    obtain ⟨r, hr, _⟩ := of_oid_ok_of_mem i hi
    refine ⟨i, hi, r, hr, ?_⟩
    rw [hr] at hik
    exact Except.ok.inj hik

/-- C10 on one identifier and on one triple of the product. -/
theorem C10_ids_are_family_height_product_witness :
    (∃ r, of_oid XMSS_SHAKE_16_256 = .ok r ∧
      record_key r = ("SHAKE-128(256)", 256, 16) ∧ record_key r ∈ family_height_product) ∧
    (("SHA-512", 512, 20) ∈ family_height_product ∧
      ∃ i ∈ defined_ids, ∃ r, of_oid i = .ok r ∧ record_key r = ("SHA-512", 512, 20)) :=
  ⟨⟨_, rfl, rfl, (C10_ids_are_family_height_product.1 XMSS_SHAKE_16_256 _ rfl).1⟩,
   ⟨by decide, C10_ids_are_family_height_product.2.2.1 _ (by decide)⟩⟩

/-- C11: in every record the constructor builds, the Winternitz width is 16. -/
theorem C11_winternitz_width_is_16 (oid : xmss_algorithm_t) (r : XMSS_Parameters)
    (h : of_oid oid = .ok r) : r.m_w = 16 := by
  cases oid <;> first
    | (cases h; rfl)
    | (exact absurd h (by simp [of_oid]))

/-- C11 on the record of `XMSS_SHAKE_10_512`. -/
theorem C11_winternitz_width_is_16_witness :
    ∃ r, of_oid XMSS_SHAKE_10_512 = .ok r ∧ r.m_w = 16 :=
  ⟨_, rfl, C11_winternitz_width_is_16 XMSS_SHAKE_10_512 _ rfl⟩

/-- C12: in the record of each of the twelve identifiers, the WOTS identifier
is `WOTSP_SHA2_256` exactly when the hash name is "SHA-256", `WOTSP_SHA2_512`
exactly when it is "SHA-512", `WOTSP_SHAKE_256` exactly when it is
"SHAKE-128(256)" and `WOTSP_SHAKE_512` exactly when it is "SHAKE-256(512)"; so
two records with the same hash name have the same WOTS identifier, whatever
their tree heights. -/
theorem C12_wots_oid_matches_hash (oid : xmss_algorithm_t) (r : XMSS_Parameters)
    (h : of_oid oid = .ok r) :
    (r.m_wots_oid = WOTSP_SHA2_256 ↔ r.m_hash_name = "SHA-256") ∧
    (r.m_wots_oid = WOTSP_SHA2_512 ↔ r.m_hash_name = "SHA-512") ∧
    (r.m_wots_oid = WOTSP_SHAKE_256 ↔ r.m_hash_name = "SHAKE-128(256)") ∧
    (r.m_wots_oid = WOTSP_SHAKE_512 ↔ r.m_hash_name = "SHAKE-256(512)") ∧
    (∀ oid2 r2, of_oid oid2 = .ok r2 → r2.m_hash_name = r.m_hash_name →
      r2.m_wots_oid = r.m_wots_oid) := by
  have key : ∀ (o : xmss_algorithm_t) (q : XMSS_Parameters), of_oid o = .ok q →
      (q.m_wots_oid = WOTSP_SHA2_256 ↔ q.m_hash_name = "SHA-256") ∧
      (q.m_wots_oid = WOTSP_SHA2_512 ↔ q.m_hash_name = "SHA-512") ∧
      (q.m_wots_oid = WOTSP_SHAKE_256 ↔ q.m_hash_name = "SHAKE-128(256)") ∧
      (q.m_wots_oid = WOTSP_SHAKE_512 ↔ q.m_hash_name = "SHAKE-256(512)") := by
    intro o q hq
    cases o <;> first
      | (cases hq; decide)
      | (exact absurd hq (by simp [of_oid]))
  obtain ⟨k1, k2, k3, k4⟩ := key oid r h
  refine ⟨k1, k2, k3, k4, ?_⟩
  intro oid2 r2 h2 hn
  obtain ⟨j1, j2, j3, j4⟩ := key oid2 r2 h2
  cases hw : r.m_wots_oid with
  | WOTSP_SHA2_256 => exact j1.2 (hn.trans (k1.1 hw))
  | WOTSP_SHA2_512 => exact j2.2 (hn.trans (k2.1 hw))
  | WOTSP_SHAKE_256 => exact j3.2 (hn.trans (k3.1 hw))
  | WOTSP_SHAKE_512 => exact j4.2 (hn.trans (k4.1 hw))

/-- C12 on the records of `XMSS_SHAKE_16_256` and `XMSS_SHAKE_20_256`: hash
name "SHAKE-128(256)", WOTS identifier `WOTSP_SHAKE_256` at both heights. -/
theorem C12_wots_oid_matches_hash_witness :
    ∃ r r2, of_oid XMSS_SHAKE_16_256 = .ok r ∧ of_oid XMSS_SHAKE_20_256 = .ok r2 ∧
      r.m_hash_name = "SHAKE-128(256)" ∧ r.m_wots_oid = WOTSP_SHAKE_256 ∧
      r2.m_wots_oid = r.m_wots_oid :=
  ⟨_, _, rfl, rfl, rfl,
    (C12_wots_oid_matches_hash XMSS_SHAKE_16_256 _ rfl).2.2.1.2 rfl,
    (C12_wots_oid_matches_hash XMSS_SHAKE_16_256 _ rfl).2.2.2.2 XMSS_SHAKE_20_256 _ rfl rfl⟩

/-- C13 as stated fails on the code: the lookup of "XMSS-SHAKE_10_256" does
not return `XMSS_SHAKE_16_256`, and it is not the case that no string is
resolved to `XMSS_SHAKE_10_256`. -/
theorem C13_lookup_of_SHAKE_10_256_counterexample :
    xmss_id_from_string "XMSS-SHAKE_10_256" ≠ .ok XMSS_SHAKE_16_256 ∧
    ¬ (∀ s, xmss_id_from_string s ≠ .ok XMSS_SHAKE_10_256) :=
  ⟨by decide, fun h => h "XMSS-SHAKE_10_256" (by decide)⟩

/-- C13, amended: the lookup of "XMSS-SHAKE_10_256" returns
`XMSS_SHAKE_10_256`, taken by the first of the two comparisons with that
string, and `XMSS_SHAKE_10_256` is reachable by name lookup, through that
string and no other. -/
theorem C13_lookup_of_SHAKE_10_256_amended :
    xmss_id_from_string "XMSS-SHAKE_10_256" = .ok XMSS_SHAKE_10_256 ∧
    (∃ s, xmss_id_from_string s = .ok XMSS_SHAKE_10_256) ∧
    (∀ s, xmss_id_from_string s = .ok XMSS_SHAKE_10_256 ↔ s = "XMSS-SHAKE_10_256") := by
  refine ⟨by decide, ⟨"XMSS-SHAKE_10_256", by decide⟩, fun s => ⟨fun h => ?_, fun h => ?_⟩⟩
  · exact xmss_id_from_string_unique s "XMSS-SHAKE_10_256" _ h (by decide)
  · rw [h]
    decide

/-- C14: the record of `XMSS_SHAKE_20_512` has the name "XMSS_SHAKE_20_512",
with an underscore after XMSS, which is not the canonical name
"XMSS-SHAKE_20_512"; the record of each of the other eleven identifiers has
exactly the canonical name of that identifier, beginning "XMSS-"; so exactly
one record departs from the hyphen convention. -/
theorem C14_one_name_has_underscore :
    (∃ r, of_oid XMSS_SHAKE_20_512 = .ok r ∧ r.m_name = "XMSS_SHAKE_20_512" ∧
      r.m_name ≠ "XMSS-SHAKE_20_512" ∧ r.m_name.data.take 5 = "XMSS_".data) ∧
    (∀ p ∈ name_id_table, p.2 ≠ XMSS_SHAKE_20_512 →
      ∃ r, of_oid p.2 = .ok r ∧ r.m_name = p.1 ∧ r.m_name.data.take 5 = "XMSS-".data) ∧
    name_id_table.filter (fun p => decide (Except.map m_name (of_oid p.2) ≠ .ok p.1)) =
      [("XMSS-SHAKE_20_512", XMSS_SHAKE_20_512)] := by
  refine ⟨⟨_, rfl, by decide⟩, ?_, by decide⟩
  intro p hp hne
  simp only [name_id_table, canonical_names, defined_ids, List.zip_cons_cons, List.zip_nil_right,
    List.mem_cons, List.mem_singleton, List.mem_nil_iff, or_false] at hp
  rcases hp with hp | hp | hp | hp | hp | hp | hp | hp | hp | hp | hp | hp <;> subst hp <;>
    first
      | exact absurd rfl hne
      | exact ⟨_, rfl, by decide⟩

/-- C14 on one of the eleven identifiers whose record keeps the hyphen. -/
theorem C14_one_name_has_underscore_witness :
    ("XMSS-SHAKE_10_512", XMSS_SHAKE_10_512) ∈ name_id_table ∧
    ∃ r, of_oid XMSS_SHAKE_10_512 = .ok r ∧ r.m_name = "XMSS-SHAKE_10_512" ∧
      r.m_name.data.take 5 = "XMSS-".data :=
  ⟨by decide,
    C14_one_name_has_underscore.2.1 ("XMSS-SHAKE_10_512", XMSS_SHAKE_10_512) (by decide)
      (by decide)⟩

/-- C15: an identifier is returned by the name lookup for some string exactly
when it is one of the twelve enumerators other than `XMSS_SHAKE_16_256`. No
string is resolved to `XMSS_SHAKE_16_256`: as the second comparison with
"XMSS-SHAKE_10_256" is the only branch returning it, that branch is never
taken. Each of the other eleven enumerators is returned for exactly one
string. -/
theorem C15_reachable_ids :
    (∀ i, (∃ s, xmss_id_from_string s = .ok i) ↔
      (i ∈ defined_ids ∧ i ≠ XMSS_SHAKE_16_256)) ∧
    (∀ s, xmss_id_from_string s ≠ .ok XMSS_SHAKE_16_256) ∧
    (∀ i ∈ defined_ids, i ≠ XMSS_SHAKE_16_256 → ∃! s, xmss_id_from_string s = .ok i) := by
  have hdead : ∀ s, xmss_id_from_string s ≠ .ok XMSS_SHAKE_16_256 := by
    intro s h
    rw [xmss_id_from_string_ok_iff] at h
    rcases h with h | h | h | h | h | h | h | h | h | h | h <;>
      exact absurd h.2 (by decide)
  have hreach : ∀ i ∈ defined_ids, i ≠ XMSS_SHAKE_16_256 →
      ∃ s, xmss_id_from_string s = .ok i := by
    intro i hi hne
    simp only [defined_ids, List.mem_cons, List.mem_singleton, List.mem_nil_iff, or_false] at hi
    rcases hi with hi | hi | hi | hi | hi | hi | hi | hi | hi | hi | hi | hi <;> subst hi <;>
      first
        | exact absurd rfl hne
        | exact ⟨"XMSS-SHA2_10_256", by decide⟩ 
        | exact ⟨"XMSS-SHA2_16_256", by decide⟩ 
        | exact ⟨"XMSS-SHA2_20_256", by decide⟩ 
        | exact ⟨"XMSS-SHA2_10_512", by decide⟩ 
        | exact ⟨"XMSS-SHA2_16_512", by decide⟩ 
        | exact ⟨"XMSS-SHA2_20_512", by decide⟩ 
        | exact ⟨"XMSS-SHAKE_10_256", by decide⟩ 
        | exact ⟨"XMSS-SHAKE_20_256", by decide⟩ 
        | exact ⟨"XMSS-SHAKE_10_512", by decide⟩ 
        | exact ⟨"XMSS-SHAKE_16_512", by decide⟩ 
        | exact ⟨"XMSS-SHAKE_20_512", by decide⟩
  refine ⟨fun i => ⟨?_, fun h => hreach i h.1 h.2⟩, hdead, ?_⟩
  · rintro ⟨s, hs⟩
    refine ⟨xmss_id_from_string_mem_defined_ids s i hs, ?_⟩
    intro h16
    rw [h16] at hs
    exact hdead s hs
  · intro i hi hne
    obtain ⟨s, hs⟩ := hreach i hi hne
    exact ⟨s, hs, fun t ht => xmss_id_from_string_unique t s i ht hs⟩

/-- C15 on one reachable identifier: `XMSS_SHA2_16_256` is returned for
"XMSS-SHA2_16_256". -/
theorem C15_reachable_ids_witness :
    XMSS_SHA2_16_256 ∈ defined_ids ∧ XMSS_SHA2_16_256 ≠ XMSS_SHAKE_16_256 ∧
    xmss_id_from_string "XMSS-SHA2_16_256" = .ok XMSS_SHA2_16_256 ∧
    ∃! s, xmss_id_from_string s = .ok XMSS_SHA2_16_256 :=
  ⟨by decide, by decide, by decide,
    C15_reachable_ids.2.2 XMSS_SHA2_16_256 (by decide) (by decide)⟩

/-- C16: in every record the constructor builds, the chain count is the WOTS+
length formula applied to the record's own element size n and width w:
len = len1 + len2, where len1 = ceil(8n / log2 w) and
len2 = floor(log2(len1 * (w - 1)) / log2 w) + 1, the logarithms and quotients
being taken over the real numbers; this gives 64 + 3 = 67 for n = 32 and
128 + 3 = 131 for n = 64. -/
theorem C16_len_is_wots_formula (oid : xmss_algorithm_t) (r : XMSS_Parameters)
    (h : of_oid oid = .ok r) :
    r.m_len = wots_len r.m_element_size r.m_w ∧
    wots_len1 r.m_element_size r.m_w =
      ⌈(8 * (r.m_element_size : ℝ)) / Real.logb 2 (r.m_w : ℝ)⌉₊ ∧
    wots_len2 r.m_element_size r.m_w =
      ⌊Real.logb 2 ((wots_len1 r.m_element_size r.m_w : ℝ) * ((r.m_w : ℝ) - 1)) /
        Real.logb 2 (r.m_w : ℝ)⌋₊ + 1 ∧
    (r.m_element_size = 32 →
      wots_len1 32 r.m_w = 64 ∧ wots_len2 32 r.m_w = 3 ∧ r.m_len = 67) ∧
    (r.m_element_size = 64 →
      wots_len1 64 r.m_w = 128 ∧ wots_len2 64 r.m_w = 3 ∧ r.m_len = 131) := by
  have c16 : ((16 : ℕ) : ℝ) = 16 := by norm_num
  rcases size_w_len_of_ok oid r h with ⟨hn, hw, hl⟩ | ⟨hn, hw, hl⟩
  · rw [hn, hw, hl]
    refine ⟨wots_len_32_16.symm, ?_, ?_, ?_, ?_⟩
    · rw [wots_len1_32_16, c16]
      exact (ceil_div_logb_16 32 64 (by norm_num)).symm
    · have hx : ((64 : ℕ) : ℝ) * (((16 : ℕ) : ℝ) - 1) = ((960 : ℕ) : ℝ) := by norm_num
      rw [wots_len1_32_16, wots_len2_32_16, hx, c16,
        floor_logb_div_logb_16 960 2 (by norm_num) (by norm_num)]
    · intro _
      exact ⟨wots_len1_32_16, wots_len2_32_16, rfl⟩
    · intro h64
      exact absurd h64 (by decide)
  · rw [hn, hw, hl]
    refine ⟨wots_len_64_16.symm, ?_, ?_, ?_, ?_⟩
    · rw [wots_len1_64_16, c16]
      exact (ceil_div_logb_16 64 128 (by norm_num)).symm
    · have hx : ((128 : ℕ) : ℝ) * (((16 : ℕ) : ℝ) - 1) = ((1920 : ℕ) : ℝ) := by norm_num
      rw [wots_len1_64_16, wots_len2_64_16, hx, c16,
        floor_logb_div_logb_16 1920 2 (by norm_num) (by norm_num)]
    · intro h32
      exact absurd h32 (by decide)
    · intro _
      exact ⟨wots_len1_64_16, wots_len2_64_16, rfl⟩

/-- C16 on the records of `XMSS_SHA2_10_256` (n = 32) and `XMSS_SHA2_10_512`
(n = 64). -/
theorem C16_len_is_wots_formula_witness :
    (∃ r, of_oid XMSS_SHA2_10_256 = .ok r ∧ r.m_len = wots_len r.m_element_size r.m_w ∧
      r.m_len = 67) ∧
    (∃ r, of_oid XMSS_SHA2_10_512 = .ok r ∧ r.m_len = wots_len r.m_element_size r.m_w ∧
      r.m_len = 131) :=
  ⟨⟨_, rfl, (C16_len_is_wots_formula XMSS_SHA2_10_256 _ rfl).1, rfl⟩,
   ⟨_, rfl, (C16_len_is_wots_formula XMSS_SHA2_10_512 _ rfl).1, rfl⟩⟩

/-- C17, evaluated on the code: feeding the name of the record of
`XMSS_SHAKE_16_256` ("XMSS-SHAKE_16_256") back to the name lookup throws
`Lookup_Error`, and so does the name of the record of `XMSS_SHAKE_20_512`
("XMSS_SHAKE_20_512"); these two are the only identifiers among the twelve that
the round trip through the record's name does not give back. -/
theorem C17_id_round_trip_breaks :
    (of_oid XMSS_SHAKE_16_256 >>= fun r => xmss_id_from_string r.m_name) =
      .error (.Lookup_Error "Unknown XMSS algorithm param 'XMSS-SHAKE_16_256'") ∧
    (of_oid XMSS_SHAKE_20_512 >>= fun r => xmss_id_from_string r.m_name) =
      .error (.Lookup_Error "Unknown XMSS algorithm param 'XMSS_SHAKE_20_512'") ∧
    defined_ids.filter
        (fun i => decide ((of_oid i >>= fun r => xmss_id_from_string r.m_name) ≠ .ok i)) =
      [XMSS_SHAKE_16_256, XMSS_SHAKE_20_512] := by
  decide

/-- C18: the record of each of the twelve identifiers stores that identifier
as its `m_oid`; hence two of the twelve identifiers with the same record are
equal, and for every string on which the name lookup succeeds,
construct-from-name succeeds and the `m_oid` of its record is the identifier
the lookup returned. -/
theorem C18_record_stores_oid :
    (∀ i ∈ defined_ids, ∃ r, of_oid i = .ok r ∧ r.m_oid = i) ∧
    (∀ i r, of_oid i = .ok r → r.m_oid = i) ∧
    (∀ a ∈ defined_ids, ∀ b ∈ defined_ids, of_oid a = of_oid b → a = b) ∧
    (∀ s i, xmss_id_from_string s = .ok i →
      ∃ r, of_string s = .ok r ∧ r.m_oid = i) := by
  refine ⟨of_oid_ok_of_mem, m_oid_of_ok, ?_, ?_⟩
  · intro a ha b _ hab
    obtain ⟨ra, hra, hoa⟩ := of_oid_ok_of_mem a ha
    have hrb : of_oid b = .ok ra := hab ▸ hra
    rw [← hoa]
    exact m_oid_of_ok b ra hrb
  · intro s i hs
    obtain ⟨r, hr, ho⟩ :=
      of_oid_ok_of_mem i (xmss_id_from_string_mem_defined_ids s i hs)
    refine ⟨r, ?_, ho⟩
    simp [of_string, hs, bind, Except.bind, hr]

/-- C18 on the identifier `XMSS_SHA2_20_256` and on the name
"XMSS-SHAKE_20_512". -/
theorem C18_record_stores_oid_witness :
    (∃ r, of_oid XMSS_SHA2_20_256 = .ok r ∧ r.m_oid = XMSS_SHA2_20_256) ∧
    xmss_id_from_string "XMSS-SHAKE_20_512" = .ok XMSS_SHAKE_20_512 ∧
    (∃ r, of_string "XMSS-SHAKE_20_512" = .ok r ∧ r.m_oid = XMSS_SHAKE_20_512) :=
  ⟨C18_record_stores_oid.1 XMSS_SHA2_20_256 (by decide), by decide,
   C18_record_stores_oid.2.2.2 "XMSS-SHAKE_20_512" XMSS_SHAKE_20_512 (by decide)⟩

end claims

end Botan
